import Mathlib

/-!
Verification of the optics-store virtual try-on code paths.

The numeric code of the repository (face-landmark to world-space mapping,
exponential smoothing of model transforms, clamping of rotation targets,
calibration state wiring, upload-route configuration and middleware) is
embedded here over the rationals. Third-party math primitives (Math.atan2,
Math.hypot, Math.sqrt, Math.PI, the three.js quaternion operations) are
taken as parameters, since only the way the repository combines them is at
stake. JavaScript numbers are modelled as exact rationals.
-/

namespace OpticsStore

/-! ### Basic data model (Point, FaceTrackingData, calibration records) -/

/-- Two-dimensional point with normalized coordinates (interface Point of
src/unnamed/part_004 and the FaceTracking3DViewer components). -/
structure Point2 where
  x : ℚ
  y : ℚ
deriving DecidableEq

/-- Three-dimensional vector (three.js Vector3, components only). -/
structure Vec3 where
  x : ℚ
  y : ℚ
  z : ℚ
deriving DecidableEq

/-- Euler angles in degrees: pitch is the x component, yaw the y component,
roll the z component. -/
structure EulerAngles where
  pitch : ℚ
  yaw : ℚ
  roll : ℚ
deriving DecidableEq

/-- The seven-field calibration record shared by all 3D components. -/
structure Calibration where
  scale : ℚ
  offsetX : ℚ
  offsetY : ℚ
  offsetZ : ℚ
  rotationX : ℚ
  rotationY : ℚ
  rotationZ : ℚ
deriving DecidableEq

/-- Face tracking data produced by the detect loops (interface
FaceTrackingData, without the optional landmark list). -/
structure FaceTrackingData where
  leftEye : Point2
  rightEye : Point2
  nose : Point2
  rotation : EulerAngles
  scale : ℚ
deriving DecidableEq

/-- JavaScript numeric or-fallback: v is replaced by d exactly when v is 0,
because 0 is the only falsy rational. -/
def jsOr (v d : ℚ) : ℚ := if v = 0 then d else v

/-- three.js Vector3.lerp: each component moves by (target - current) * alpha. -/
def vec3Lerp (v t : Vec3) (alpha : ℚ) : Vec3 :=
  ⟨v.x + (t.x - v.x) * alpha, v.y + (t.y - v.y) * alpha, v.z + (t.z - v.z) * alpha⟩

/-! ### Canvas-based viewer: Model3D of src/unnamed/part_004 (useFrame body) -/

/-- Smoothing factor lerpAlpha = 0.35 of the Model3D frame update
(src/unnamed/part_004, line 161). -/
def model3DLerpAlpha : ℚ := 35/100

/-- Inline clamp helper of the Model3D frame update (src/unnamed/part_004,
line 168): Math.max mn (Math.min mx v). -/
def clamp (v mn mx : ℚ) : ℚ := max mn (min mx v)

/-- Eye center of the detected face (src/unnamed/part_004, lines 136-139). -/
def eyeCenter (fd : FaceTrackingData) : Point2 :=
  ⟨(fd.leftEye.x + fd.rightEye.x) / 2, (fd.leftEye.y + fd.rightEye.y) / 2⟩

/-- World X mapping of the Model3D frame update (src/unnamed/part_004,
line 145): worldX = (x - 0.5) * vpWidth. -/
def model3DWorldX (x vpWidth : ℚ) : ℚ := (x - 1/2) * vpWidth

/-- World Y mapping of the Model3D frame update (src/unnamed/part_004,
line 146): worldY = -(y - 0.5) * vpHeight. -/
def model3DWorldY (y vpHeight : ℚ) : ℚ := -(y - 1/2) * vpHeight

/-- Per-frame position target of Model3D (src/unnamed/part_004,
lines 141-158), including the heuristic default offsets. -/
def model3DTargetPosition (fd : FaceTrackingData) (cal : Calibration) (vpW vpH : ℚ) : Vec3 :=
  let worldX := model3DWorldX (eyeCenter fd).x vpW
  let worldY := model3DWorldY (eyeCenter fd).y vpH
  let worldZ : ℚ := 0
  let defaultXOffset := 2/100 * vpW
  let defaultYOffset := -(3/100) * vpH
  let defaultZOffset : ℚ := 0
  ⟨worldX + defaultXOffset + cal.offsetX,
   worldY + cal.offsetY + defaultYOffset,
   worldZ + cal.offsetZ + defaultZOffset⟩

/-- Position smoothing of Model3D: group.position.lerp target 0.35
(src/unnamed/part_004, line 162). -/
def model3DPositionStep (pos : Vec3) (fd : FaceTrackingData) (cal : Calibration)
    (vpW vpH : ℚ) : Vec3 :=
  vec3Lerp pos (model3DTargetPosition fd cal vpW vpH) model3DLerpAlpha

/-- Clamped Euler rotation target of Model3D (src/unnamed/part_004,
lines 164-177): pitch and yaw are amplified by their gains, roll is negated
for the mirrored preview, each then has its calibration added and is clamped. -/
def model3DClampedEuler (fd : FaceTrackingData) (cal : Calibration) : EulerAngles :=
  let yawGain : ℚ := 22/10
  let pitchGain : ℚ := 14/10
  ⟨clamp (fd.rotation.pitch * pitchGain + cal.rotationX) (-30) 30,
   clamp (fd.rotation.yaw * yawGain + cal.rotationY) (-45) 45,
   clamp (-fd.rotation.roll + cal.rotationZ) (-45) 45⟩

/-- Rotation smoothing of Model3D (src/unnamed/part_004, lines 172-179): the
quaternion state is slerped toward the quaternion built from the clamped Euler
target, with factor 0.35. setFromEuler and slerp stand for the three.js
quaternion operations and are taken as parameters. -/
def model3DRotationStep (Q : Type) (setFromEuler : EulerAngles → Q)
    (slerp : Q → Q → ℚ → Q) (q : Q) (fd : FaceTrackingData) (cal : Calibration) : Q :=
  slerp q (setFromEuler (model3DClampedEuler fd cal)) model3DLerpAlpha

/-- Scale target of Model3D (src/unnamed/part_004, lines 181-190); hyp models
Math.hypot, and the JavaScript or-fallback guards calibration.scale. -/
def model3DTargetScale (hyp : ℚ → ℚ → ℚ) (fd : FaceTrackingData) (cal : Calibration)
    (vpW modelWidth : ℚ) : ℚ :=
  let eyeDistance := hyp (fd.rightEye.x - fd.leftEye.x) (fd.rightEye.y - fd.leftEye.y)
  let eyeDistanceWorld := eyeDistance * vpW
  let baseScale := eyeDistanceWorld * (18/10) / modelWidth
  max (1/1000) (baseScale * jsOr cal.scale 1)

/-- Scale smoothing of Model3D (src/unnamed/part_004, lines 191-193):
nextScale = currentScale + (targetScale - currentScale) * 0.35. -/
def model3DScaleStep (currentScale targetScale : ℚ) : ℚ :=
  currentScale + (targetScale - currentScale) * model3DLerpAlpha

/-- Pose derived from the MediaPipe landmark array in startDetectLoop
(src/unnamed/part_004, lines 411-458). atan2 and hyp model Math.atan2 and
Math.hypot; pi models Math.PI; the landmark array is modelled as a total
function from index to point, read at the fixed indices 33, 362 and 1. -/
def startDetectLoopPose (atan2 hyp : ℚ → ℚ → ℚ) (pi : ℚ) (lm : Nat → Point2) :
    FaceTrackingData :=
  let leftEye := lm 33
  let rightEye := lm 362
  let nose := lm 1
  let eyeVectorX := rightEye.x - leftEye.x
  let eyeVectorY := rightEye.y - leftEye.y
  let roll := atan2 eyeVectorY eyeVectorX * 180 / pi
  let noseOffsetX := nose.x - (leftEye.x + rightEye.x) / 2
  let noseOffsetY := nose.y - (leftEye.y + rightEye.y) / 2
  let yaw := noseOffsetX * 30
  let pitch := noseOffsetY * 20
  let eyeDistance := hyp eyeVectorX eyeVectorY
  ⟨leftEye, rightEye, nose, ⟨pitch, yaw, roll⟩, eyeDistance⟩

/-! ### FaceDetector-based viewer: first FaceTracking3DViewer of
src/unnamed/part_002 (detectAndRender) -/

/-- Pose estimation of the FaceDetector-based viewer (src/unnamed/part_002,
lines 290-333): eye and nose positions are fixed fractions of the bounding
box, normalized by the video dimensions; atan2, sqrt and pi model Math.atan2,
Math.sqrt and Math.PI. The pitch keeps the mixed units of the source, which
subtracts the pixel eyeY from the normalized nose.y. -/
def fdComputePose (atan2 : ℚ → ℚ → ℚ) (sqrt : ℚ → ℚ) (pi : ℚ)
    (boxX boxY boxW boxH videoW videoH : ℚ) : FaceTrackingData :=
  let leftEyeX := boxX + boxW * (3/10)
  let rightEyeX := boxX + boxW * (7/10)
  let eyeY := boxY + boxH * (4/10)
  let noseX := boxX + boxW * (5/10)
  let noseY := boxY + boxH * (6/10)
  let leftEye : Point2 := ⟨leftEyeX / videoW, eyeY / videoH⟩
  let rightEye : Point2 := ⟨rightEyeX / videoW, eyeY / videoH⟩
  let nose : Point2 := ⟨noseX / videoW, noseY / videoH⟩
  let eyeDistance := sqrt ((rightEye.x - leftEye.x) ^ 2 + (rightEye.y - leftEye.y) ^ 2)
  let faceScale := eyeDistance * 2
  let yaw := atan2 (rightEye.x - leftEye.x) (rightEye.y - leftEye.y) * (180 / pi)
  let pitch := atan2 (nose.y - eyeY) (1/10) * (180 / pi)
  let roll := atan2 (rightEye.y - leftEye.y) (rightEye.x - leftEye.x) * (180 / pi)
  ⟨leftEye, rightEye, nose, ⟨pitch, yaw, roll⟩, faceScale⟩

/-- World X of the FaceDetector-based viewer (src/unnamed/part_002,
line 345): (eyeCenterX - 0.5) * 4. -/
def fdWorldX (eyeCenterX : ℚ) : ℚ := (eyeCenterX - 1/2) * 4

/-- World Y of the FaceDetector-based viewer (src/unnamed/part_002,
line 346): -(eyeCenterY - 0.5) * 3. -/
def fdWorldY (eyeCenterY : ℚ) : ℚ := -(eyeCenterY - 1/2) * 3

/-- A model transform as assigned by .position.set, .rotation.set and
.scale.set: position, rotation in radians, and per-axis scale. -/
structure ModelTransform where
  position : Vec3
  rotationRad : Vec3
  scale : Vec3
deriving DecidableEq

/-- Transform assigned to the model in the FaceDetector-based viewer
(src/unnamed/part_002, lines 338-365): position, rotation and scale are
computed from the current face data and props alone. -/
def fdModelUpdate (pi : ℚ) (p : Calibration) (face : FaceTrackingData) : ModelTransform :=
  let eyeCenterX := (face.leftEye.x + face.rightEye.x) / 2
  let eyeCenterY := (face.leftEye.y + face.rightEye.y) / 2
  let worldX := fdWorldX eyeCenterX
  let worldY := fdWorldY eyeCenterY
  let faceScale := face.scale * p.scale
  ⟨⟨worldX + p.offsetX, worldY + p.offsetY, p.offsetZ⟩,
   ⟨(p.rotationX + face.rotation.pitch) * pi / 180,
    (p.rotationY + face.rotation.yaw) * pi / 180,
    (p.rotationZ + face.rotation.roll) * pi / 180⟩,
   ⟨faceScale, faceScale, faceScale⟩⟩

/-- One frame of the FaceDetector-based viewer as a transition on the model
transform: the previous transform is overwritten by .set calls, never
interpolated. -/
def fdModelStep (pi : ℚ) (p : Calibration) (_prev : ModelTransform)
    (face : FaceTrackingData) : ModelTransform :=
  fdModelUpdate pi p face

/-! ### MediaPipe landmark viewer: second FaceTracking3DViewer of
src/unnamed/part_002 (detectAndRender with smoothing refs) -/

/-- Mirrored x of the landmark viewer (src/unnamed/part_002, line 846):
mirroredX = 1 - mid.x. -/
def lmMirroredX (midX : ℚ) : ℚ := 1 - midX

/-- World X of the landmark viewer (src/unnamed/part_002, line 863):
(mirroredX - 0.5) * world.width. -/
def lmWorldX (mirroredX worldWidth : ℚ) : ℚ := (mirroredX - 1/2) * worldWidth

/-- World Y of the landmark viewer (src/unnamed/part_002, line 864):
-(mid.y - 0.5) * world.height. -/
def lmWorldY (midY worldHeight : ℚ) : ℚ := -(midY - 1/2) * worldHeight

/-- Smoothing factor alpha = 0.25 of the landmark viewer
(src/unnamed/part_002, line 867). -/
def lmAlpha : ℚ := 25/100

/-- The smoothing refs of the landmark viewer: smoothPos, smoothRot (radians)
and smoothScale. -/
structure LmSmoothState where
  posX : ℚ
  posY : ℚ
  rotX : ℚ
  rotY : ℚ
  rotZ : ℚ
  scale : ℚ
deriving DecidableEq

/-- The frame values feeding one smoothing step of the landmark viewer:
world position of the eye midpoint, pose angles in degrees, and face scale. -/
structure LmFrameInput where
  worldX : ℚ
  worldY : ℚ
  pitch : ℚ
  yaw : ℚ
  roll : ℚ
  faceScale : ℚ
deriving DecidableEq

/-- Exponential smoothing step of the landmark viewer (src/unnamed/part_002,
lines 868-874): every channel moves by (target - current) * alpha, where the
targets combine the frame values with the calibration props. -/
def lmSmoothStep (pi : ℚ) (p : Calibration) (st : LmSmoothState)
    (inp : LmFrameInput) : LmSmoothState :=
  ⟨st.posX + (inp.worldX + p.offsetX - st.posX) * lmAlpha,
   st.posY + (inp.worldY + p.offsetY - st.posY) * lmAlpha,
   st.rotX + ((p.rotationX + inp.pitch) * pi / 180 - st.rotX) * lmAlpha,
   st.rotY + ((p.rotationY - inp.yaw) * pi / 180 - st.rotY) * lmAlpha,
   st.rotZ + ((p.rotationZ + inp.roll) * pi / 180 - st.rotZ) * lmAlpha,
   st.scale + (inp.faceScale * p.scale - st.scale) * lmAlpha⟩

/-! ### Calibration slider wiring (Simple3DPreview of src/unnamed/part_000 and
Model3DPreview of src/unnamed/part_001) -/

/-- The seven calibration fields, one per slider. -/
inductive CalField
  | scale
  | offsetX
  | offsetY
  | offsetZ
  | rotationX
  | rotationY
  | rotationZ
deriving DecidableEq

/-- Projection of a calibration record at a field. -/
def getCalField (c : Calibration) : CalField → ℚ
  | CalField.scale => c.scale
  | CalField.offsetX => c.offsetX
  | CalField.offsetY => c.offsetY
  | CalField.offsetZ => c.offsetZ
  | CalField.rotationX => c.rotationX
  | CalField.rotationY => c.rotationY
  | CalField.rotationZ => c.rotationZ

/-- The local-state write performed by a slider handler (setLocalScale and
friends): the named field is replaced, the others keep their values. -/
def setLocalField (c : Calibration) : CalField → ℚ → Calibration
  | CalField.scale, v => ⟨v, c.offsetX, c.offsetY, c.offsetZ, c.rotationX, c.rotationY, c.rotationZ⟩
  | CalField.offsetX, v => ⟨c.scale, v, c.offsetY, c.offsetZ, c.rotationX, c.rotationY, c.rotationZ⟩
  | CalField.offsetY, v => ⟨c.scale, c.offsetX, v, c.offsetZ, c.rotationX, c.rotationY, c.rotationZ⟩
  | CalField.offsetZ, v => ⟨c.scale, c.offsetX, c.offsetY, v, c.rotationX, c.rotationY, c.rotationZ⟩
  | CalField.rotationX, v => ⟨c.scale, c.offsetX, c.offsetY, c.offsetZ, v, c.rotationY, c.rotationZ⟩
  | CalField.rotationY, v => ⟨c.scale, c.offsetX, c.offsetY, c.offsetZ, c.rotationX, v, c.rotationZ⟩
  | CalField.rotationZ, v => ⟨c.scale, c.offsetX, c.offsetY, c.offsetZ, c.rotationX, c.rotationY, v⟩

/-- A newValues object: each field optionally present. -/
structure CalibrationUpdate where
  scale : Option ℚ
  offsetX : Option ℚ
  offsetY : Option ℚ
  offsetZ : Option ℚ
  rotationX : Option ℚ
  rotationY : Option ℚ
  rotationZ : Option ℚ
deriving DecidableEq

/-- Object-spread semantics of handleCalibrationChange (src/unnamed/part_000,
lines 116-131, and src/unnamed/part_001, lines 112-127): the current local
values are spread first, then the fields present in newValues override them;
the result is passed to onCalibrationChange. -/
def handleCalibrationChange (c : Calibration) (u : CalibrationUpdate) : Calibration :=
  ⟨u.scale.getD c.scale, u.offsetX.getD c.offsetX, u.offsetY.getD c.offsetY,
   u.offsetZ.getD c.offsetZ, u.rotationX.getD c.rotationX, u.rotationY.getD c.rotationY,
   u.rotationZ.getD c.rotationZ⟩

/-- The single-field newValues object each slider onValueChange handler
passes to handleCalibrationChange. -/
def singleFieldUpdate : CalField → ℚ → CalibrationUpdate
  | CalField.scale, v => ⟨some v, none, none, none, none, none, none⟩
  | CalField.offsetX, v => ⟨none, some v, none, none, none, none, none⟩
  | CalField.offsetY, v => ⟨none, none, some v, none, none, none, none⟩
  | CalField.offsetZ, v => ⟨none, none, none, some v, none, none, none⟩
  | CalField.rotationX, v => ⟨none, none, none, none, some v, none, none⟩
  | CalField.rotationY, v => ⟨none, none, none, none, none, some v, none⟩
  | CalField.rotationZ, v => ⟨none, none, none, none, none, none, some v⟩

/-! ### WebGL detection and render of ClientOnly3DPreview
(src/unnamed/part_001, second component) -/

/-- The two modules the effect can dynamically import. -/
inductive PreviewModule
  | model3dPreview
  | simpleFallback
deriving DecidableEq

/-- JavaScript or over the two getContext results: the first non-null one. -/
def webglContext (A : Type) (webgl experimental : Option A) : Option A :=
  match webgl with
  | some g => some g
  | none => experimental

/-- setHasWebGL of the double-bang of gl: true exactly when a context exists. -/
def hasWebGLOf (A : Type) (gl : Option A) : Bool := gl.isSome

/-- Module chosen for the dynamic import in the mount effect of
ClientOnly3DPreview (src/unnamed/part_001, lines 349-365): the 3D preview
module when a context exists, the simple fallback otherwise. -/
def moduleToImport (A : Type) (gl : Option A) : PreviewModule :=
  match gl with
  | some _ => PreviewModule.model3dPreview
  | none => PreviewModule.simpleFallback

/-- The four possible render results of ClientOnly3DPreview. -/
inductive PreviewRender
  | loadingClient
  | webglUnsupported
  | loadingComponent
  | preview (m : PreviewModule)
deriving DecidableEq

/-- Render of ClientOnly3DPreview (src/unnamed/part_001, lines 370-423):
client loading screen, then the WebGL-unsupported fallback, then the
component loading screen, then the loaded preview component. -/
def clientOnly3DPreviewRender (isClient hasGL : Bool) (loaded : Option PreviewModule) :
    PreviewRender :=
  if isClient = false then PreviewRender.loadingClient
  else if hasGL = false then PreviewRender.webglUnsupported
  else
    match loaded with
    | none => PreviewRender.loadingComponent
    | some m => PreviewRender.preview m

/-- Message text of the WebGL-unsupported fallback. -/
def webglUnsupportedMessage : String := "WebGL غير مدعوم"

/-- The user-facing message of a render result, when it has one. -/
def renderMessage : PreviewRender → Option String
  | PreviewRender.webglUnsupported => some webglUnsupportedMessage
  | _ => none

/-! ### Error boundaries (ErrorBoundary of
src/components/shared/lazy-3d-try-on.tsx and ThreeJSErrorBoundary of
src/unnamed/part_001) -/

/-- State of both error boundary classes. -/
structure ErrorBoundaryState where
  hasError : Bool
deriving DecidableEq

/-- getDerivedStateFromError of ErrorBoundary
(src/components/shared/lazy-3d-try-on.tsx, lines 49-51). -/
def errorBoundaryDerivedState : ErrorBoundaryState := ⟨true⟩

/-- render of ErrorBoundary (src/components/shared/lazy-3d-try-on.tsx,
lines 57-63): the fallback prop when hasError, otherwise the children. -/
def errorBoundaryRender (A : Type) (st : ErrorBoundaryState) (fallback children : A) : A :=
  if st.hasError then fallback else children

/-- getDerivedStateFromError of ThreeJSErrorBoundary (src/unnamed/part_001,
lines 47-49). -/
def threeJSBoundaryDerivedState : ErrorBoundaryState := ⟨true⟩

/-- render of ThreeJSErrorBoundary (src/unnamed/part_001, lines 55-68): the
fixed fallback UI when hasError, otherwise the children. -/
def threeJSBoundaryRender (A : Type) (st : ErrorBoundaryState) (fallbackUI children : A) : A :=
  if st.hasError then fallbackUI else children

/-! ### Upload router (src/lib/constants.ts) -/

/-- Route configuration of model3dUploader (src/lib/constants.ts,
lines 42-45): each accepted media type with its declared maximum file size,
exactly as written in the router object literal. -/
def model3dUploaderConfig : List (String × String) :=
  [("model/gltf-binary", "50MB"), ("model/gltf+json", "50MB")]

/-- Declared maximum file size for a media type, looked up in the router
configuration. -/
def model3dUploaderMaxSize (t : String) : Option String :=
  model3dUploaderConfig.lookup t

/-- Whether the 3D-model route accepts a media type. -/
def model3dUploaderAccepts (t : String) : Bool :=
  (model3dUploaderConfig.lookup t).isSome

/-- The user field of an auth session; its id is itself optional. -/
structure SessionUser where
  id : Option String
deriving DecidableEq

/-- An auth session as consumed by the upload middleware. -/
structure AuthSession where
  user : Option SessionUser
deriving DecidableEq

/-- Metadata returned by the upload middleware. -/
structure UploadMetadata where
  userId : Option String
deriving DecidableEq

/-- Value returned to the client after onUploadComplete. -/
structure UploadResult where
  uploadedBy : Option String
deriving DecidableEq

/-- The optional chain session?.user?.id. -/
def sessionUserId (s : AuthSession) : Option String :=
  s.user.bind (fun u => u.id)

/-- middleware of imageUploader (src/lib/constants.ts, lines 24-33): throws
Unauthorized without a session, else returns the user id as metadata. -/
def imageUploaderMiddleware (session : Option AuthSession) : Except String UploadMetadata :=
  match session with
  | none => Except.error "Unauthorized"
  | some s => Except.ok ⟨sessionUserId s⟩

/-- middleware of model3dUploader (src/lib/constants.ts, lines 46-50). -/
def model3dUploaderMiddleware (session : Option AuthSession) : Except String UploadMetadata :=
  match session with
  | none => Except.error "Unauthorized"
  | some s => Except.ok ⟨sessionUserId s⟩

/-- onUploadComplete of imageUploader: returns uploadedBy = metadata.userId. -/
def imageUploaderOnComplete (m : UploadMetadata) : UploadResult := ⟨m.userId⟩

/-- onUploadComplete of model3dUploader. -/
def model3dUploaderOnComplete (m : UploadMetadata) : UploadResult := ⟨m.userId⟩

/-- Route semantics of the upload service: the middleware runs first; only if
it succeeds does onUploadComplete run with the produced metadata. -/
def imageUploadRoute (session : Option AuthSession) : Except String UploadResult :=
  (imageUploaderMiddleware session).map imageUploaderOnComplete

/-- Route semantics of the 3D-model upload route. -/
def model3dUploadRoute (session : Option AuthSession) : Except String UploadResult :=
  (model3dUploaderMiddleware session).map model3dUploaderOnComplete

/-! ### Calibration prop defaults and reset (Simple3DPreview of
src/unnamed/part_000 and Model3DPreview of src/unnamed/part_001) -/

/-- The optional calibration props of the preview components. -/
structure CalibrationProps where
  scale : Option ℚ
  offsetX : Option ℚ
  offsetY : Option ℚ
  offsetZ : Option ℚ
  rotationX : Option ℚ
  rotationY : Option ℚ
  rotationZ : Option ℚ
deriving DecidableEq

/-- The default calibration: scale 1, all offsets and rotations 0. -/
def defaultCalibration : Calibration := ⟨1, 0, 0, 0, 0, 0, 0⟩

/-- Destructuring defaults of Simple3DPreview (src/unnamed/part_000,
lines 75-85): scale = 1, every offset and rotation = 0. -/
def simple3DPreviewResolveProps (p : CalibrationProps) : Calibration :=
  ⟨p.scale.getD 1, p.offsetX.getD 0, p.offsetY.getD 0, p.offsetZ.getD 0,
   p.rotationX.getD 0, p.rotationY.getD 0, p.rotationZ.getD 0⟩

/-- Destructuring defaults of Model3DPreview (src/unnamed/part_001,
lines 71-81). -/
def model3DPreviewResolveProps (p : CalibrationProps) : Calibration :=
  ⟨p.scale.getD 1, p.offsetX.getD 0, p.offsetY.getD 0, p.offsetZ.getD 0,
   p.rotationX.getD 0, p.rotationY.getD 0, p.rotationZ.getD 0⟩

/-- resetCalibration of Simple3DPreview (src/unnamed/part_000, lines 94-114):
the new local state and the object emitted through onCalibrationChange, both
written out literally in the source. -/
def simple3DPreviewReset : Calibration × Calibration :=
  (⟨1, 0, 0, 0, 0, 0, 0⟩, ⟨1, 0, 0, 0, 0, 0, 0⟩)

/-- resetCalibration of Model3DPreview (src/unnamed/part_001, lines 90-110). -/
def model3DPreviewReset : Calibration × Calibration :=
  (⟨1, 0, 0, 0, 0, 0, 0⟩, ⟨1, 0, 0, 0, 0, 0, 0⟩)

/-! ### Helper lemmas -/

/-- Strict monotonicity of the affine map x to (x - 1/2) * w for positive w. -/
theorem affine_half_strictMono {w x1 x2 : ℚ} (hw : 0 < w) (hx : x1 < x2) :
    (x1 - 1/2) * w < (x2 - 1/2) * w :=
  mul_lt_mul_of_pos_right (by linarith) hw

/-! ### Claim theorems -/

/-- Claim C2: in all three face-tracking viewers the normalized-to-world
mapping is the affine map worldX = (x - 0.5) * width, worldY = -(y - 0.5) *
height (with x already mirrored where the viewer mirrors), so the normalized
center maps to the world origin, worldX is strictly increasing in the
(possibly mirrored) x, and worldY is strictly decreasing in y, for positive
viewport dimensions; in the FaceDetector-based viewer the dimensions are the
constants 4 and 3. -/
theorem claim_C2_world_mapping :
    (∀ w : ℚ, model3DWorldX (1/2) w = 0 ∧ model3DWorldY (1/2) w = 0) ∧
    (∀ w x1 x2 : ℚ, 0 < w → x1 < x2 → model3DWorldX x1 w < model3DWorldX x2 w) ∧
    (∀ h y1 y2 : ℚ, 0 < h → y1 < y2 → model3DWorldY y2 h < model3DWorldY y1 h) ∧
    (∀ w : ℚ, lmWorldX (1/2) w = 0 ∧ lmWorldX (lmMirroredX (1/2)) w = 0 ∧ lmWorldY (1/2) w = 0) ∧
    (∀ w x1 x2 : ℚ, 0 < w → x1 < x2 → lmWorldX x1 w < lmWorldX x2 w) ∧
    (∀ h y1 y2 : ℚ, 0 < h → y1 < y2 → lmWorldY y2 h < lmWorldY y1 h) ∧
    (fdWorldX (1/2) = 0 ∧ fdWorldY (1/2) = 0) ∧
    (∀ x1 x2 : ℚ, x1 < x2 → fdWorldX x1 < fdWorldX x2) ∧
    (∀ y1 y2 : ℚ, y1 < y2 → fdWorldY y2 < fdWorldY y1) := by
  refine ⟨fun w => ⟨by simp [model3DWorldX], by simp [model3DWorldY]⟩,
    fun w x1 x2 hw hx => affine_half_strictMono hw hx,
    fun h y1 y2 hh hy => ?_,
    fun w => ⟨by simp [lmWorldX], by norm_num [lmWorldX, lmMirroredX], by simp [lmWorldY]⟩,
    fun w x1 x2 hw hx => affine_half_strictMono hw hx,
    fun h y1 y2 hh hy => ?_,
    ⟨by simp [fdWorldX], by simp [fdWorldY]⟩,
    fun x1 x2 hx => affine_half_strictMono (by norm_num) hx,
    fun y1 y2 hy => ?_⟩
  · have := affine_half_strictMono hh hy
    simp only [model3DWorldY]
    linarith
  · have := affine_half_strictMono hh hy
    simp only [lmWorldY]
    linarith
  · have := affine_half_strictMono (show (0:ℚ) < 3 by norm_num) hy
    simp only [fdWorldY]
    linarith

/-- Claim C2 witness: the mapping properties at concrete values. -/
theorem claim_C2_witness :
    model3DWorldX (1/2) 10 = 0 ∧
    model3DWorldX (1/4) 10 < model3DWorldX (3/4) 10 ∧
    model3DWorldY (3/4) 10 < model3DWorldY (1/4) 10 ∧
    lmWorldX (1/4) 8 < lmWorldX (3/4) 8 ∧
    lmWorldY (3/4) 6 < lmWorldY (1/4) 6 ∧
    fdWorldX (1/4) < fdWorldX (3/4) ∧
    fdWorldY (3/4) < fdWorldY (1/4) :=
  ⟨(claim_C2_world_mapping.1 10).1,
   claim_C2_world_mapping.2.1 10 (1/4) (3/4) (by norm_num) (by norm_num),
   claim_C2_world_mapping.2.2.1 10 (1/4) (3/4) (by norm_num) (by norm_num),
   claim_C2_world_mapping.2.2.2.2.1 8 (1/4) (3/4) (by norm_num) (by norm_num),
   claim_C2_world_mapping.2.2.2.2.2.1 6 (1/4) (3/4) (by norm_num) (by norm_num),
   claim_C2_world_mapping.2.2.2.2.2.2.2.1 (1/4) (3/4) (by norm_num),
   claim_C2_world_mapping.2.2.2.2.2.2.2.2 (1/4) (3/4) (by norm_num)⟩

/-- Claim C4: when both getContext calls return null, the wrapper imports the
simple fallback module and not the 3D preview module, and its render is the
WebGL-unsupported fallback carrying the message text, whatever component may
have been loaded. -/
theorem claim_C4_webgl_fallback :
    ∀ (A : Type) (webgl experimental : Option A) (loaded : Option PreviewModule),
      webgl = none → experimental = none →
      moduleToImport A (webglContext A webgl experimental) = PreviewModule.simpleFallback ∧
      moduleToImport A (webglContext A webgl experimental) ≠ PreviewModule.model3dPreview ∧
      clientOnly3DPreviewRender true (hasWebGLOf A (webglContext A webgl experimental)) loaded
        = PreviewRender.webglUnsupported ∧
      renderMessage
        (clientOnly3DPreviewRender true (hasWebGLOf A (webglContext A webgl experimental)) loaded)
        = some "WebGL غير مدعوم" := by
  intro A webgl experimental loaded hw he
  subst hw
  subst he
  refine ⟨rfl, by simp [moduleToImport, webglContext], rfl, rfl⟩

/-- Claim C4 witness: the fallback path at the concrete no-context input. -/
theorem claim_C4_witness :
    moduleToImport Unit (webglContext Unit none none) = PreviewModule.simpleFallback ∧
    clientOnly3DPreviewRender true (hasWebGLOf Unit (webglContext Unit none none)) none
      = PreviewRender.webglUnsupported :=
  ⟨(claim_C4_webgl_fallback Unit none none none rfl rfl).1,
   (claim_C4_webgl_fallback Unit none none none rfl rfl).2.2.1⟩

/-- Claim C5: both error boundaries derive the state hasError = true from a
caught exception, and their render returns the fallback exactly when hasError
is true and the wrapped children unchanged otherwise. -/
theorem claim_C5_error_boundaries :
    errorBoundaryDerivedState.hasError = true ∧
    threeJSBoundaryDerivedState.hasError = true ∧
    (∀ (A : Type) (st : ErrorBoundaryState) (f c : A),
      (st.hasError = true → errorBoundaryRender A st f c = f) ∧
      (st.hasError = false → errorBoundaryRender A st f c = c)) ∧
    (∀ (A : Type) (st : ErrorBoundaryState) (f c : A),
      (st.hasError = true → threeJSBoundaryRender A st f c = f) ∧
      (st.hasError = false → threeJSBoundaryRender A st f c = c)) := by
  refine ⟨rfl, rfl, fun A st f c => ⟨fun h => ?_, fun h => ?_⟩,
    fun A st f c => ⟨fun h => ?_, fun h => ?_⟩⟩ <;>
    simp [errorBoundaryRender, threeJSBoundaryRender, h]

/-- Claim C5 witness: both boundaries at both concrete states. -/
theorem claim_C5_witness :
    errorBoundaryRender ℚ ⟨true⟩ 7 3 = 7 ∧
    errorBoundaryRender ℚ ⟨false⟩ 7 3 = 3 ∧
    threeJSBoundaryRender ℚ ⟨true⟩ 7 3 = 7 ∧
    threeJSBoundaryRender ℚ ⟨false⟩ 7 3 = 3 :=
  ⟨(claim_C5_error_boundaries.2.2.1 ℚ ⟨true⟩ 7 3).1 rfl,
   (claim_C5_error_boundaries.2.2.1 ℚ ⟨false⟩ 7 3).2 rfl,
   (claim_C5_error_boundaries.2.2.2 ℚ ⟨true⟩ 7 3).1 rfl,
   (claim_C5_error_boundaries.2.2.2 ℚ ⟨false⟩ 7 3).2 rfl⟩

/-- Claim C1 counterexample: the FaceDetector-based try-on viewer does not
smooth. At this concrete frame the previous model position is the origin and
the frame target x is 1; the applied position x is exactly 1, while
exponential smoothing old + (target - old) * alpha would give 0.25 or 0.35
for the factors the claim states. -/
theorem claim_C1_counterexample :
    (fdModelStep 3 ⟨1, 0, 0, 0, 0, 0, 0⟩ ⟨⟨0, 0, 0⟩, ⟨0, 0, 0⟩, ⟨1, 1, 1⟩⟩
        ⟨⟨7/10, 1/2⟩, ⟨4/5, 1/2⟩, ⟨3/4, 3/5⟩, ⟨0, 0, 0⟩, 1/10⟩).position.x = 1 ∧
    (fdModelStep 3 ⟨1, 0, 0, 0, 0, 0, 0⟩ ⟨⟨0, 0, 0⟩, ⟨0, 0, 0⟩, ⟨1, 1, 1⟩⟩
        ⟨⟨7/10, 1/2⟩, ⟨4/5, 1/2⟩, ⟨3/4, 3/5⟩, ⟨0, 0, 0⟩, 1/10⟩).position.x ≠
      (0 : ℚ) + ((fdModelUpdate 3 ⟨1, 0, 0, 0, 0, 0, 0⟩
        ⟨⟨7/10, 1/2⟩, ⟨4/5, 1/2⟩, ⟨3/4, 3/5⟩, ⟨0, 0, 0⟩, 1/10⟩).position.x - 0) * (25/100) ∧
    (fdModelStep 3 ⟨1, 0, 0, 0, 0, 0, 0⟩ ⟨⟨0, 0, 0⟩, ⟨0, 0, 0⟩, ⟨1, 1, 1⟩⟩
        ⟨⟨7/10, 1/2⟩, ⟨4/5, 1/2⟩, ⟨3/4, 3/5⟩, ⟨0, 0, 0⟩, 1/10⟩).position.x ≠
      (0 : ℚ) + ((fdModelUpdate 3 ⟨1, 0, 0, 0, 0, 0, 0⟩
        ⟨⟨7/10, 1/2⟩, ⟨4/5, 1/2⟩, ⟨3/4, 3/5⟩, ⟨0, 0, 0⟩, 1/10⟩).position.x - 0) * (35/100) := by
  refine ⟨?_, ?_, ?_⟩ <;> norm_num [fdModelStep, fdModelUpdate, fdWorldX, fdWorldY]

/-- Claim C1 amended: exponential smoothing new = (1 - alpha) * old + alpha *
target holds with alpha 0.25 for position, Euler rotation and scale in the
MediaPipe landmark viewer, and with alpha 0.35 for position (componentwise)
and scale in the fiber-Canvas viewer, whose rotation is instead smoothed by
quaternion slerp toward the frame target with the same factor 0.35; the
FaceDetector-based viewer assigns the frame target transform directly, with
no dependence on the previous value. -/
theorem claim_C1_amended :
    (∀ (pi : ℚ) (p : Calibration) (st : LmSmoothState) (inp : LmFrameInput),
      (lmSmoothStep pi p st inp).posX
          = (1 - lmAlpha) * st.posX + lmAlpha * (inp.worldX + p.offsetX) ∧
      (lmSmoothStep pi p st inp).posY
          = (1 - lmAlpha) * st.posY + lmAlpha * (inp.worldY + p.offsetY) ∧
      (lmSmoothStep pi p st inp).rotX
          = (1 - lmAlpha) * st.rotX + lmAlpha * ((p.rotationX + inp.pitch) * pi / 180) ∧
      (lmSmoothStep pi p st inp).rotY
          = (1 - lmAlpha) * st.rotY + lmAlpha * ((p.rotationY - inp.yaw) * pi / 180) ∧
      (lmSmoothStep pi p st inp).rotZ
          = (1 - lmAlpha) * st.rotZ + lmAlpha * ((p.rotationZ + inp.roll) * pi / 180) ∧
      (lmSmoothStep pi p st inp).scale
          = (1 - lmAlpha) * st.scale + lmAlpha * (inp.faceScale * p.scale)) ∧
    (∀ (pos : Vec3) (fd : FaceTrackingData) (cal : Calibration) (vpW vpH : ℚ),
      (model3DPositionStep pos fd cal vpW vpH).x
          = (1 - model3DLerpAlpha) * pos.x
            + model3DLerpAlpha * (model3DTargetPosition fd cal vpW vpH).x ∧
      (model3DPositionStep pos fd cal vpW vpH).y
          = (1 - model3DLerpAlpha) * pos.y
            + model3DLerpAlpha * (model3DTargetPosition fd cal vpW vpH).y ∧
      (model3DPositionStep pos fd cal vpW vpH).z
          = (1 - model3DLerpAlpha) * pos.z
            + model3DLerpAlpha * (model3DTargetPosition fd cal vpW vpH).z) ∧
    (∀ currentScale targetScale : ℚ,
      model3DScaleStep currentScale targetScale
          = (1 - model3DLerpAlpha) * currentScale + model3DLerpAlpha * targetScale) ∧
    (∀ (Q : Type) (setFromEuler : EulerAngles → Q) (slerp : Q → Q → ℚ → Q)
        (q : Q) (fd : FaceTrackingData) (cal : Calibration),
      model3DRotationStep Q setFromEuler slerp q fd cal
          = slerp q (setFromEuler (model3DClampedEuler fd cal)) (35/100)) ∧
    (∀ (pi : ℚ) (p : Calibration) (prev1 prev2 : ModelTransform) (face : FaceTrackingData),
      fdModelStep pi p prev1 face = fdModelStep pi p prev2 face ∧
      fdModelStep pi p prev1 face = fdModelUpdate pi p face) := by
  refine ⟨fun pi p st inp => ⟨?_, ?_, ?_, ?_, ?_, ?_⟩,
    fun pos fd cal vpW vpH => ⟨?_, ?_, ?_⟩,
    fun currentScale targetScale => ?_,
    fun Q setFromEuler slerp q fd cal => rfl,
    fun pi p prev1 prev2 face => ⟨rfl, rfl⟩⟩ <;>
  · simp only [lmSmoothStep, lmAlpha, model3DPositionStep, vec3Lerp,
      model3DScaleStep, model3DLerpAlpha]
    ring

/-- Claim C3: a slider change for one calibration field stores the value in
the local state for that field and emits through onCalibrationChange a
calibration object whose changed field equals the value while the other six
fields keep their previous local-state values. -/
theorem claim_C3_slider_change :
    ∀ (st : Calibration) (f : CalField) (v : ℚ),
      getCalField (setLocalField st f v) f = v ∧
      (∀ g : CalField, g ≠ f → getCalField (setLocalField st f v) g = getCalField st g) ∧
      handleCalibrationChange st (singleFieldUpdate f v) = setLocalField st f v := by
  intro st f v
  refine ⟨?_, ?_, ?_⟩
  · cases f <;> rfl
  · intro g hg
    cases f <;> cases g <;> first | rfl | exact absurd rfl hg
  · cases f <;> rfl

/-- Claim C3 witness: moving the offsetY slider to 5 on the default state. -/
theorem claim_C3_witness :
    getCalField (setLocalField ⟨1, 0, 0, 0, 0, 0, 0⟩ CalField.offsetY 5) CalField.offsetY = 5 ∧
    getCalField (setLocalField ⟨1, 0, 0, 0, 0, 0, 0⟩ CalField.offsetY 5) CalField.scale = 1 ∧
    handleCalibrationChange ⟨1, 0, 0, 0, 0, 0, 0⟩ (singleFieldUpdate CalField.offsetY 5)
      = setLocalField ⟨1, 0, 0, 0, 0, 0, 0⟩ CalField.offsetY 5 :=
  ⟨(claim_C3_slider_change ⟨1, 0, 0, 0, 0, 0, 0⟩ CalField.offsetY 5).1,
   (claim_C3_slider_change ⟨1, 0, 0, 0, 0, 0, 0⟩ CalField.offsetY 5).2.1 CalField.scale
     (by decide),
   (claim_C3_slider_change ⟨1, 0, 0, 0, 0, 0, 0⟩ CalField.offsetY 5).2.2⟩

/-- Claim C6: the 3D-model upload route accepts exactly the media types
model/gltf-binary and model/gltf+json, each with declared maximum file size
50MB, straight from the router configuration literal. -/
theorem claim_C6_model3d_routes :
    model3dUploaderConfig = [("model/gltf-binary", "50MB"), ("model/gltf+json", "50MB")] ∧
    model3dUploaderAccepts "model/gltf-binary" = true ∧
    model3dUploaderAccepts "model/gltf+json" = true ∧
    model3dUploaderMaxSize "model/gltf-binary" = some "50MB" ∧
    model3dUploaderMaxSize "model/gltf+json" = some "50MB" ∧
    (∀ t : String, t ≠ "model/gltf-binary" → t ≠ "model/gltf+json" →
      model3dUploaderAccepts t = false) := by
  refine ⟨rfl, by decide, by decide, by decide, by decide, ?_⟩
  intro t h1 h2
  have hb1 : (t == "model/gltf-binary") = false := beq_eq_false_iff_ne.mpr h1
  have hb2 : (t == "model/gltf+json") = false := beq_eq_false_iff_ne.mpr h2
  simp [model3dUploaderAccepts, model3dUploaderConfig, List.lookup, hb1, hb2]

/-- Claim C6 witness: a rejected media type and an accepted one. -/
theorem claim_C6_witness :
    model3dUploaderAccepts "image/png" = false ∧
    model3dUploaderAccepts "model/gltf-binary" = true :=
  ⟨claim_C6_model3d_routes.2.2.2.2.2 "image/png" (by decide) (by decide),
   claim_C6_model3d_routes.2.1⟩

/-- Claim C7: each omitted calibration prop defaults to the standard value
(scale 1, offsets and rotations 0) in both preview components, and
resetCalibration restores the local state and the emitted calibration object
to exactly these defaults. -/
theorem claim_C7_defaults_and_reset :
    (∀ p : CalibrationProps,
      (p.scale = none → (simple3DPreviewResolveProps p).scale = 1) ∧
      (p.offsetX = none → (simple3DPreviewResolveProps p).offsetX = 0) ∧
      (p.offsetY = none → (simple3DPreviewResolveProps p).offsetY = 0) ∧
      (p.offsetZ = none → (simple3DPreviewResolveProps p).offsetZ = 0) ∧
      (p.rotationX = none → (simple3DPreviewResolveProps p).rotationX = 0) ∧
      (p.rotationY = none → (simple3DPreviewResolveProps p).rotationY = 0) ∧
      (p.rotationZ = none → (simple3DPreviewResolveProps p).rotationZ = 0)) ∧
    (∀ p : CalibrationProps,
      (p.scale = none → (model3DPreviewResolveProps p).scale = 1) ∧
      (p.offsetX = none → (model3DPreviewResolveProps p).offsetX = 0) ∧
      (p.offsetY = none → (model3DPreviewResolveProps p).offsetY = 0) ∧
      (p.offsetZ = none → (model3DPreviewResolveProps p).offsetZ = 0) ∧
      (p.rotationX = none → (model3DPreviewResolveProps p).rotationX = 0) ∧
      (p.rotationY = none → (model3DPreviewResolveProps p).rotationY = 0) ∧
      (p.rotationZ = none → (model3DPreviewResolveProps p).rotationZ = 0)) ∧
    simple3DPreviewResolveProps ⟨none, none, none, none, none, none, none⟩
      = defaultCalibration ∧
    model3DPreviewResolveProps ⟨none, none, none, none, none, none, none⟩
      = defaultCalibration ∧
    simple3DPreviewReset = (defaultCalibration, defaultCalibration) ∧
    model3DPreviewReset = (defaultCalibration, defaultCalibration) := by
  refine ⟨fun p => ⟨?_, ?_, ?_, ?_, ?_, ?_, ?_⟩, fun p => ⟨?_, ?_, ?_, ?_, ?_, ?_, ?_⟩,
    rfl, rfl, rfl, rfl⟩ <;>
  · intro h
    simp [simple3DPreviewResolveProps, model3DPreviewResolveProps, h]

/-- Claim C7 witness: resolving the all-omitted props yields the defaults. -/
theorem claim_C7_witness :
    (simple3DPreviewResolveProps ⟨none, none, none, none, none, none, none⟩).scale = 1 ∧
    (model3DPreviewResolveProps ⟨none, none, none, none, none, none, none⟩).rotationZ = 0 :=
  ⟨(claim_C7_defaults_and_reset.1 ⟨none, none, none, none, none, none, none⟩).1 rfl,
   (claim_C7_defaults_and_reset.2.1
     ⟨none, none, none, none, none, none, none⟩).2.2.2.2.2.2 rfl⟩

/-- Claim C8: in both detect loops the derived pose uses basic trigonometry
on the eye coordinates: the roll equals atan2 of the eye deltas converted to
degrees, and the face scale is built from the inter-eye Euclidean distance
(Math.hypot in the landmark loop; the square root of the sum of squared
deltas, times 2, in the FaceDetector loop). -/
theorem claim_C8_pose_trig :
    (∀ (atan2 hyp : ℚ → ℚ → ℚ) (pi : ℚ) (lm : Nat → Point2),
      (startDetectLoopPose atan2 hyp pi lm).rotation.roll
        = atan2
            ((startDetectLoopPose atan2 hyp pi lm).rightEye.y
              - (startDetectLoopPose atan2 hyp pi lm).leftEye.y)
            ((startDetectLoopPose atan2 hyp pi lm).rightEye.x
              - (startDetectLoopPose atan2 hyp pi lm).leftEye.x) * 180 / pi ∧
      (startDetectLoopPose atan2 hyp pi lm).scale
        = hyp
            ((startDetectLoopPose atan2 hyp pi lm).rightEye.x
              - (startDetectLoopPose atan2 hyp pi lm).leftEye.x)
            ((startDetectLoopPose atan2 hyp pi lm).rightEye.y
              - (startDetectLoopPose atan2 hyp pi lm).leftEye.y)) ∧
    (∀ (atan2 : ℚ → ℚ → ℚ) (sqrt : ℚ → ℚ) (pi boxX boxY boxW boxH videoW videoH : ℚ),
      (fdComputePose atan2 sqrt pi boxX boxY boxW boxH videoW videoH).rotation.roll
        = atan2
            ((fdComputePose atan2 sqrt pi boxX boxY boxW boxH videoW videoH).rightEye.y
              - (fdComputePose atan2 sqrt pi boxX boxY boxW boxH videoW videoH).leftEye.y)
            ((fdComputePose atan2 sqrt pi boxX boxY boxW boxH videoW videoH).rightEye.x
              - (fdComputePose atan2 sqrt pi boxX boxY boxW boxH videoW videoH).leftEye.x)
            * (180 / pi) ∧
      (fdComputePose atan2 sqrt pi boxX boxY boxW boxH videoW videoH).scale
        = sqrt
            (((fdComputePose atan2 sqrt pi boxX boxY boxW boxH videoW videoH).rightEye.x
              - (fdComputePose atan2 sqrt pi boxX boxY boxW boxH videoW videoH).leftEye.x) ^ 2
            + ((fdComputePose atan2 sqrt pi boxX boxY boxW boxH videoW videoH).rightEye.y
              - (fdComputePose atan2 sqrt pi boxX boxY boxW boxH videoW videoH).leftEye.y) ^ 2)
            * 2) :=
  ⟨fun _ _ _ _ => ⟨rfl, rfl⟩,
   fun _ _ _ _ _ _ _ _ _ => ⟨rfl, rfl⟩⟩

/-- Claim C9: both upload middlewares throw Unauthorized exactly when auth
returns no session, so the route can only complete with a session, and on
success the route returns the uploading user id. -/
theorem claim_C9_upload_auth :
    imageUploaderMiddleware none = Except.error "Unauthorized" ∧
    model3dUploaderMiddleware none = Except.error "Unauthorized" ∧
    (∀ s : AuthSession, imageUploadRoute (some s) = Except.ok ⟨sessionUserId s⟩) ∧
    (∀ s : AuthSession, model3dUploadRoute (some s) = Except.ok ⟨sessionUserId s⟩) ∧
    (∀ (session : Option AuthSession) (r : UploadResult),
      imageUploadRoute session = Except.ok r → session ≠ none) ∧
    (∀ (session : Option AuthSession) (r : UploadResult),
      model3dUploadRoute session = Except.ok r → session ≠ none) := by
  refine ⟨rfl, rfl, fun s => rfl, fun s => rfl, ?_, ?_⟩ <;>
  · intro session r h hnone
    subst hnone
    simp [imageUploadRoute, model3dUploadRoute, imageUploaderMiddleware,
      model3dUploaderMiddleware, Except.map] at h

/-- Claim C9 witness: an authenticated session succeeds with its user id and
the missing session is rejected. -/
theorem claim_C9_witness :
    imageUploadRoute (some ⟨some ⟨some "u1"⟩⟩) = Except.ok ⟨some "u1"⟩ ∧
    model3dUploadRoute (some ⟨some ⟨some "u1"⟩⟩) = Except.ok ⟨some "u1"⟩ ∧
    (some ⟨some ⟨some "u1"⟩⟩ : Option AuthSession) ≠ none :=
  ⟨claim_C9_upload_auth.2.2.1 ⟨some ⟨some "u1"⟩⟩,
   claim_C9_upload_auth.2.2.2.1 ⟨some ⟨some "u1"⟩⟩,
   claim_C9_upload_auth.2.2.2.2.1 (some ⟨some ⟨some "u1"⟩⟩) ⟨some "u1"⟩
     (claim_C9_upload_auth.2.2.1 ⟨some ⟨some "u1"⟩⟩)⟩

end OpticsStore
